import Mathlib

/-
Shallow embedding of pillarwallet/common-mq, src/lib/amqp.js.

The file models the AMPQ class (an EventEmitter subclass) as pure
functions that return the trace of externally observable actions:
transport operations (createChannel, assertExchange, assertQueue,
bindQueue, consume, ack, publish) and event emissions (error, system,
message).  JavaScript objects that are spread generically
(the delivery record handed to the consume callback) are modelled as
association lists from field names to JSON-like values; JSON.parse,
Buffer decoding and event listeners are external collaborators and are
taken as parameters.  Exceptions are modelled with Except.
-/

/-- A JSON-like value, the result type of the external JSON.parse and the
value type of delivery-record fields. -/
inductive JsonVal where
  | str : String → JsonVal
  | num : Int → JsonVal
  | bool : Bool → JsonVal
  | null : JsonVal
  | arr : List JsonVal → JsonVal
  | obj : List (String × JsonVal) → JsonVal

/-- A JavaScript object viewed as its own enumerable properties: an
association list from field names to values. -/
abbrev Obj := List (String × JsonVal)

/-- Property lookup on a JavaScript object (first binding wins, matching
the unique-key discipline of JS objects). -/
def lookupField (o : Obj) (k : String) : Option JsonVal :=
  match o with
  | [] => none
  | (k2, v) :: rest => if k == k2 then some v else lookupField rest k

/-- Object.assign target source, observed through lookupField: a field of
the source wins over the same field of the target, every other target
field is kept. -/
def objAssign (target source : Obj) : Obj :=
  source ++ target

/-- The exchange descriptor of the configuration. -/
structure ExchangeCfg where
  name : String
  type : String

/-- The part of the connection configuration that connectToTopic and
pushToTopic read; all other fields are passed opaquely to the transport. -/
structure Config where
  exchange : ExchangeCfg

/-- The opts argument of the constructor.  A missing key of a
partially-supplied options object is JavaScript undefined, modelled as
none. -/
structure Opts where
  consume : Option Bool
  acknowledge : Option Bool

/-- The default value of the opts parameter, used when the caller omits
the argument entirely. -/
def defaultOpts : Opts :=
  { consume := some true, acknowledge := some true }

/-- The JavaScript strict comparison x === true applied to a possibly
undefined option value. -/
def strictTrue (v : Option Bool) : Bool :=
  match v with
  | some b => b
  | none => false

/-- Payload of an error event: either a SyntaxError built from a caught
exception message (consume callback) or a plain string (pushToTopic). -/
inductive ErrPayload where
  | synErr : String → ErrPayload
  | strMsg : String → ErrPayload

/-- Payload of a system event: either the raw result forwarded from a
broker operation (setup) or the pushResult-and-message object built by
pushToTopic. -/
inductive SysPayload where
  | raw : JsonVal → SysPayload
  | push : JsonVal → String → SysPayload

/-- One externally observable action of the client: a transport
operation or an event emission. -/
inductive MqAction where
  | connect : Config → MqAction
  | createChannel : MqAction
  | onConnectionError : MqAction
  | onChannelError : MqAction
  | assertExchange : String → String → MqAction
  | assertQueue : String → MqAction
  | bindQueue : String → String → String → MqAction
  | consume : String → MqAction
  | ack : Obj → MqAction
  | publish : String → String → List Nat → MqAction
  | emitError : ErrPayload → MqAction
  | emitSystem : SysPayload → MqAction
  | emitMessage : Obj → MqAction

def isCreateChannel : MqAction → Bool
  | .createChannel => true
  | _ => false

def isAssertExchange : MqAction → Bool
  | .assertExchange _ _ => true
  | _ => false

def isAssertQueue : MqAction → Bool
  | .assertQueue _ => true
  | _ => false

def isBindQueue : MqAction → Bool
  | .bindQueue _ _ _ => true
  | _ => false

def isConsume : MqAction → Bool
  | .consume _ => true
  | _ => false

def isAck : MqAction → Bool
  | .ack _ => true
  | _ => false

def isPublish : MqAction → Bool
  | .publish _ _ _ => true
  | _ => false

def isEmitError : MqAction → Bool
  | .emitError _ => true
  | _ => false

def isEmitSystem : MqAction → Bool
  | .emitSystem _ => true
  | _ => false

def isEmitMessage : MqAction → Bool
  | .emitMessage _ => true
  | _ => false

def isConnect : MqAction → Bool
  | .connect _ => true
  | _ => false

/-- The synchronous body of the constructor: store the fields, throw
when the incoming configuration is absent (falsy), otherwise reach the
mq.connect call.  The error message is the one thrown by the source. -/
def constructorRun (cfg : Option Config) : Except String Unit × List MqAction :=
  match cfg with
  | none => (.error "No incoming configuration was found!", [])
  | some c => (.ok (), [.connect c])

/-- Outcomes of the four awaited broker operations of connectToTopic, as
supplied by the external transport: each either resolves with a value or
rejects with an error message. -/
structure SetupOutcomes where
  channelOk : Except String Unit
  exchangeRes : Except String JsonVal
  queueRes : Except String JsonVal
  bindRes : Except String JsonVal

/-- connectToTopic: create a channel, register the connection and
channel error listeners, assert the exchange, assert the queue, bind the
queue to the exchange, emit the assertQueue result on the system event,
and, when opts.consume === true, start consuming.  A rejection of any
awaited step aborts the sequence there and rethrows (the constructor's
catch turns it into an error event). -/
def connectToTopic (cfg : Config) (topic : String) (opts : Opts)
    (s : SetupOutcomes) : Except String Unit × List MqAction :=
  match s.channelOk with
  | .error e => (.error e, [.createChannel])
  | .ok _ =>
    match s.exchangeRes with
    | .error e =>
        (.error e,
         [.createChannel, .onConnectionError, .onChannelError,
          .assertExchange cfg.exchange.name cfg.exchange.type])
    | .ok _ =>
      match s.queueRes with
      | .error e =>
          (.error e,
           [.createChannel, .onConnectionError, .onChannelError,
            .assertExchange cfg.exchange.name cfg.exchange.type,
            .assertQueue topic])
      | .ok result =>
        match s.bindRes with
        | .error e =>
            (.error e,
             [.createChannel, .onConnectionError, .onChannelError,
              .assertExchange cfg.exchange.name cfg.exchange.type,
              .assertQueue topic,
              .bindQueue topic cfg.exchange.name topic])
        | .ok _ =>
            (.ok (),
             [.createChannel, .onConnectionError, .onChannelError,
              .assertExchange cfg.exchange.name cfg.exchange.type,
              .assertQueue topic,
              .bindQueue topic cfg.exchange.name topic,
              .emitSystem (.raw result)] ++
             (if strictTrue opts.consume then [.consume topic] else []))

/-- msg.content.toString(): the body bytes of the delivery decoded to a
string; the content field of the delivery record holds them. -/
def contentOf (msg : Obj) : String :=
  match lookupField msg "content" with
  | some (JsonVal.str s) => s
  | _ => ""

/-- The try-catch part of the per-delivery consume callback: try to
JSON.parse the body, on success build the outgoing record with
Object.assign and emit it on the message event; any exception thrown
inside the try block — a parse failure, or an error thrown by a
message-event listener during the emit — is caught, wrapped in a
SyntaxError and emitted on the error event (an error thrown by an
error-event listener during that second emit escapes).  JSON.parse is
the external parameter parse (error means the exception's message); ml
and el are what the registered message and error listeners do when
invoked by the emit. -/
def tryCatchBody (parse : String → Except String JsonVal)
    (ml : Obj → Except String Unit)
    (el : String → Except String Unit)
    (msg : Obj) : Except String Unit × List MqAction :=
  match parse (contentOf msg) with
  | .error e =>
    match el e with
    | .ok _ => (.ok (), [.emitError (.synErr e)])
    | .error e2 => (.error e2, [.emitError (.synErr e)])
  | .ok j =>
    match ml (objAssign [("message", j)] msg) with
    | .ok _ => (.ok (), [.emitMessage (objAssign [("message", j)] msg)])
    | .error e =>
      match el e with
      | .ok _ =>
          (.ok (), [.emitMessage (objAssign [("message", j)] msg),
                    .emitError (.synErr e)])
      | .error e2 =>
          (.error e2, [.emitMessage (objAssign [("message", j)] msg),
                       .emitError (.synErr e)])

/-- The per-delivery consume callback: the try-catch body followed by
the finally block, which acknowledges the delivery when
opts.acknowledge === true and then lets the body's outcome stand. -/
def consumeCallback (opts : Opts)
    (parse : String → Except String JsonVal)
    (ml : Obj → Except String Unit)
    (el : String → Except String Unit)
    (msg : Obj) : Except String Unit × List MqAction :=
  ((tryCatchBody parse ml el msg).1,
   (tryCatchBody parse ml el msg).2 ++
     (if strictTrue opts.acknowledge then [.ack msg] else []))

/-- Buffer.from(message): the UTF-8 byte encoding of the string. -/
def bufferFrom (s : String) : List Nat :=
  s.toUTF8.toList.map (fun b => b.toNat)

/-- The error message emitted by pushToTopic when no channel exists. -/
def noChannelMsg : String :=
  "No open communication channel found. Was the connection to the message queue server successful?"

/-- pushToTopic: when this.channel is null, emit an error event and
return false without touching the transport; otherwise publish the
encoded message to the configured exchange with the topic as routing
key, emit a system event with the publish result and the original
message, and return true.  publishRes is the value the external
transport's publish resolves with. -/
def pushToTopic (channel : Option Unit) (cfg : Config) (topic : String)
    (message : String) (publishRes : JsonVal) : Bool × List MqAction :=
  match channel with
  | none => (false, [.emitError (.strMsg noChannelMsg)])
  | some _ =>
      (true,
       [.publish cfg.exchange.name topic (bufferFrom message),
        .emitSystem (.push publishRes message)])

/-- Concrete external JSON.parse that rejects every body. -/
def parseReject : String → Except String JsonVal :=
  fun _ => .error "Unexpected token"

/-- Concrete external JSON.parse that resolves every body to the number 7. -/
def parseNum7 : String → Except String JsonVal :=
  fun _ => .ok (JsonVal.num 7)

/-- A message-event listener that returns normally. -/
def okML : Obj → Except String Unit := fun _ => .ok ()

/-- A message-event listener that throws. -/
def throwML : Obj → Except String Unit := fun _ => .error "listener failure"

/-- An error-event listener that returns normally. -/
def okEL : String → Except String Unit := fun _ => .ok ()

/-- A concrete delivery record with a malformed body. -/
def sampleBadMsg : Obj := [("content", JsonVal.str "not-json")]

/-- A concrete delivery record with only a content field. -/
def samplePlainMsg : Obj := [("content", JsonVal.str "body")]

/-- lookupField passes through an append when the key is absent from the
first object. -/
theorem lookupField_append_of_none (o1 o2 : Obj) (k : String)
    (h : lookupField o1 k = none) :
    lookupField (o1 ++ o2) k = lookupField o2 k := by
  induction o1 with
  | nil => simp
  | cons p rest ih =>
    obtain ⟨k2, v⟩ := p
    by_cases hk : (k == k2) = true
    · simp [lookupField, hk] at h
    · simp only [lookupField, hk, if_false, List.cons_append, Bool.false_eq_true] at h ⊢
      exact ih h

/-- lookupField stays on the first object when the key is present there. -/
theorem lookupField_append_of_some (o1 o2 : Obj) (k : String) (v : JsonVal)
    (h : lookupField o1 k = some v) :
    lookupField (o1 ++ o2) k = some v := by
  induction o1 with
  | nil => simp [lookupField] at h
  | cons p rest ih =>
    obtain ⟨k2, v2⟩ := p
    by_cases hk : (k == k2) = true
    · simp only [lookupField, hk, if_true] at h ⊢
      exact h
    · simp only [lookupField, hk, if_false, List.cons_append, Bool.false_eq_true] at h ⊢
      exact ih h

/-- On a parse failure the try-catch body's trace is exactly one error
emission, whatever the error listener does. -/
theorem tryCatchBody_trace_parse_failure
    (parse : String → Except String JsonVal)
    (ml : Obj → Except String Unit) (el : String → Except String Unit)
    (msg : Obj) (e : String) (hp : parse (contentOf msg) = .error e) :
    (tryCatchBody parse ml el msg).2 = [.emitError (.synErr e)] := by
  cases hel : el e <;> simp [tryCatchBody, hp, hel]

/-- On a successful parse with a normally returning message listener the
try-catch body's trace is exactly one message emission. -/
theorem tryCatchBody_trace_parse_ok
    (parse : String → Except String JsonVal)
    (ml : Obj → Except String Unit) (el : String → Except String Unit)
    (msg : Obj) (j : JsonVal) (hp : parse (contentOf msg) = .ok j)
    (hml : ml (objAssign [("message", j)] msg) = .ok ()) :
    (tryCatchBody parse ml el msg).2 =
      [.emitMessage (objAssign [("message", j)] msg)] := by
  simp [tryCatchBody, hp, hml]

/-- An exception thrown by a message listener during the emit is caught
by the catch block, wrapped in a SyntaxError and emitted on the error
event, and the body returns normally. -/
theorem tryCatchBody_ml_error
    (parse : String → Except String JsonVal)
    (ml : Obj → Except String Unit) (el : String → Except String Unit)
    (msg : Obj) (j : JsonVal) (e : String)
    (hp : parse (contentOf msg) = .ok j)
    (hml : ml (objAssign [("message", j)] msg) = .error e)
    (hel : el e = .ok ()) :
    tryCatchBody parse ml el msg =
      (.ok (), [.emitMessage (objAssign [("message", j)] msg),
                .emitError (.synErr e)]) := by
  simp [tryCatchBody, hp, hml, hel]

/-- The try-catch body never acknowledges. -/
theorem tryCatchBody_countP_ack
    (parse : String → Except String JsonVal)
    (ml : Obj → Except String Unit) (el : String → Except String Unit)
    (msg : Obj) :
    (tryCatchBody parse ml el msg).2.countP isAck = 0 := by
  cases hp : parse (contentOf msg) with
  | error e =>
    cases hel : el e <;>
      simp [tryCatchBody, hp, hel, isAck, List.countP_cons, List.countP_nil]
  | ok j =>
    cases hml : ml (objAssign [("message", j)] msg) with
    | ok _ => simp [tryCatchBody, hp, hml, isAck, List.countP_cons, List.countP_nil]
    | error e =>
      cases hel : el e <;>
        simp [tryCatchBody, hp, hml, hel, isAck, List.countP_cons, List.countP_nil]

/-- The consume callback acknowledges exactly when
opts.acknowledge === true, and then exactly once. -/
theorem consumeCallback_countP_ack (o : Opts)
    (parse : String → Except String JsonVal)
    (ml : Obj → Except String Unit) (el : String → Except String Unit)
    (msg : Obj) :
    (consumeCallback o parse ml el msg).2.countP isAck =
      if strictTrue o.acknowledge then 1 else 0 := by
  unfold consumeCallback
  rw [List.countP_append, tryCatchBody_countP_ack]
  cases h : strictTrue o.acknowledge <;> simp [isAck]

/-- Claim C1: for every inbound delivery whose body fails to JSON.parse,
the consume callback emits an error event carrying a SyntaxError built
from the parse failure, emits no message event for that delivery, and,
when the acknowledge option is true, acknowledges the delivery exactly
once. -/
theorem consume_malformed_body_policy (o : Opts)
    (parse : String → Except String JsonVal)
    (ml : Obj → Except String Unit) (el : String → Except String Unit)
    (msg : Obj) (e : String)
    (hp : parse (contentOf msg) = .error e) :
    MqAction.emitError (.synErr e) ∈ (consumeCallback o parse ml el msg).2 ∧
    (consumeCallback o parse ml el msg).2.countP isEmitMessage = 0 ∧
    (o.acknowledge = some true →
      (consumeCallback o parse ml el msg).2.countP isAck = 1) := by
  have htr : (consumeCallback o parse ml el msg).2 =
      [MqAction.emitError (.synErr e)] ++
        (if strictTrue o.acknowledge then [MqAction.ack msg] else []) := by
    unfold consumeCallback
    rw [tryCatchBody_trace_parse_failure parse ml el msg e hp]
  refine ⟨?_, ?_, ?_⟩
  · rw [htr]; simp
  · rw [htr]
    cases h : strictTrue o.acknowledge <;>
      simp [List.countP_append, isEmitMessage]
  · intro ha
    rw [htr, ha]
    simp [strictTrue, List.countP_append, isAck, isEmitMessage]

/-- Witness for consume_malformed_body_policy at a concrete delivery. -/
theorem consume_malformed_body_policy_witness :
    MqAction.emitError (.synErr "Unexpected token") ∈
      (consumeCallback defaultOpts parseReject okML okEL sampleBadMsg).2 ∧
    (consumeCallback defaultOpts parseReject okML okEL sampleBadMsg).2.countP
        isEmitMessage = 0 ∧
    (consumeCallback defaultOpts parseReject okML okEL sampleBadMsg).2.countP
        isAck = 1 :=
  ⟨(consume_malformed_body_policy defaultOpts parseReject okML okEL sampleBadMsg
      "Unexpected token" rfl).1,
   (consume_malformed_body_policy defaultOpts parseReject okML okEL sampleBadMsg
      "Unexpected token" rfl).2.1,
   (consume_malformed_body_policy defaultOpts parseReject okML okEL sampleBadMsg
      "Unexpected token" rfl).2.2 rfl⟩

/-- Claim C5: pushToTopic while this.channel is null returns false,
emits exactly one error event carrying the descriptive message, and
never invokes the transport's publish operation. -/
theorem pushToTopic_before_channel (cfg : Config) (topic message : String)
    (publishRes : JsonVal) :
    (pushToTopic none cfg topic message publishRes).1 = false ∧
    (pushToTopic none cfg topic message publishRes).2.countP isEmitError = 1 ∧
    MqAction.emitError (.strMsg noChannelMsg) ∈
      (pushToTopic none cfg topic message publishRes).2 ∧
    (pushToTopic none cfg topic message publishRes).2.countP isPublish = 0 := by
  refine ⟨rfl, ?_, ?_, ?_⟩ <;> simp [pushToTopic, isEmitError, isPublish]

/-- Claim C6: pushToTopic with an open channel invokes the transport's
publish exactly once, with the configured exchange name, the
construction-time topic as routing key and the byte encoding of the
message; it returns true and emits exactly one system event whose
payload pairs the publish result with the original message. -/
theorem pushToTopic_after_setup (cfg : Config) (topic message : String)
    (publishRes : JsonVal) :
    (pushToTopic (some ()) cfg topic message publishRes).1 = true ∧
    (pushToTopic (some ()) cfg topic message publishRes).2.countP isPublish = 1 ∧
    MqAction.publish cfg.exchange.name topic (bufferFrom message) ∈
      (pushToTopic (some ()) cfg topic message publishRes).2 ∧
    (pushToTopic (some ()) cfg topic message publishRes).2.countP
        isEmitSystem = 1 ∧
    MqAction.emitSystem (.push publishRes message) ∈
      (pushToTopic (some ()) cfg topic message publishRes).2 := by
  refine ⟨rfl, ?_, ?_, ?_, ?_⟩ <;>
    simp [pushToTopic, isPublish, isEmitSystem]

/-- Claim C7: constructing with an absent (falsy) configuration throws
synchronously with the fixed message, before mq.connect is reached: no
connect action is performed and no event is emitted. -/
theorem constructor_missing_configuration :
    (constructorRun none).1 =
      Except.error "No incoming configuration was found!" ∧
    (constructorRun none).2 = [] ∧
    (constructorRun none).2.countP isConnect = 0 ∧
    (constructorRun none).2.countP isEmitError = 0 :=
  ⟨rfl, rfl, rfl, rfl⟩

/-- Claim C8: when the acknowledge option is false, the channel's ack
operation is never invoked for a delivery, whatever the parse outcome. -/
theorem consume_no_ack_when_disabled (o : Opts)
    (parse : String → Except String JsonVal)
    (ml : Obj → Except String Unit) (el : String → Except String Unit)
    (msg : Obj) (ha : o.acknowledge = some false) :
    (consumeCallback o parse ml el msg).2.countP isAck = 0 := by
  rw [consumeCallback_countP_ack, ha]
  simp [strictTrue]

/-- The options record with acknowledgment switched off. -/
def noAckOpts : Opts := { consume := some true, acknowledge := some false }

/-- Witness for consume_no_ack_when_disabled at a concrete delivery. -/
theorem consume_no_ack_when_disabled_witness :
    (consumeCallback noAckOpts parseReject okML okEL sampleBadMsg).2.countP
        isAck = 0 :=
  consume_no_ack_when_disabled noAckOpts parseReject okML okEL sampleBadMsg rfl

/-- A sample configuration matching the end-to-end scenario. -/
def sampleCfg : Config := { exchange := { name := "pillar", type := "topic" } }

/-- Broker outcomes in which every awaited setup operation resolves. -/
def sampleOutcomes : SetupOutcomes :=
  { channelOk := .ok (), exchangeRes := .ok JsonVal.null,
    queueRes := .ok (JsonVal.str "assert success"),
    bindRes := .ok (JsonVal.str "bind success") }

/-- The full trace of a connectToTopic run in which every awaited broker
operation resolves. -/
theorem connectToTopic_success_trace (cfg : Config) (topic : String)
    (o : Opts) (s : SetupOutcomes) (ev qv bv : JsonVal)
    (hc : s.channelOk = .ok ()) (he : s.exchangeRes = .ok ev)
    (hq : s.queueRes = .ok qv) (hb : s.bindRes = .ok bv) :
    (connectToTopic cfg topic o s).2 =
      [.createChannel, .onConnectionError, .onChannelError,
       .assertExchange cfg.exchange.name cfg.exchange.type,
       .assertQueue topic, .bindQueue topic cfg.exchange.name topic,
       .emitSystem (.raw qv)] ++
      (if strictTrue o.consume then [.consume topic] else []) := by
  simp [connectToTopic, hc, he, hq, hb]

/-- Claim C2: after a successful connect, a run of the setup sequence in
which every awaited broker operation resolves performs exactly one
channel creation, one exchange assertion, one queue assertion and one
queue-to-exchange bind, in that order, and the system event comes only
after all four. -/
theorem connectToTopic_setup_sequence (cfg : Config) (topic : String)
    (o : Opts) (s : SetupOutcomes) (ev qv bv : JsonVal)
    (hc : s.channelOk = .ok ()) (he : s.exchangeRes = .ok ev)
    (hq : s.queueRes = .ok qv) (hb : s.bindRes = .ok bv) :
    (connectToTopic cfg topic o s).2.countP isCreateChannel = 1 ∧
    (connectToTopic cfg topic o s).2.countP isAssertExchange = 1 ∧
    (connectToTopic cfg topic o s).2.countP isAssertQueue = 1 ∧
    (connectToTopic cfg topic o s).2.countP isBindQueue = 1 ∧
    (connectToTopic cfg topic o s).2.findIdx isCreateChannel <
      (connectToTopic cfg topic o s).2.findIdx isAssertExchange ∧
    (connectToTopic cfg topic o s).2.findIdx isAssertExchange <
      (connectToTopic cfg topic o s).2.findIdx isAssertQueue ∧
    (connectToTopic cfg topic o s).2.findIdx isAssertQueue <
      (connectToTopic cfg topic o s).2.findIdx isBindQueue ∧
    (connectToTopic cfg topic o s).2.findIdx isBindQueue <
      (connectToTopic cfg topic o s).2.findIdx isEmitSystem := by
  rw [connectToTopic_success_trace cfg topic o s ev qv bv hc he hq hb]
  cases h : strictTrue o.consume <;>
    simp [List.countP_append, List.countP_cons, List.countP_nil,
          List.findIdx_cons, isCreateChannel, isAssertExchange,
          isAssertQueue, isBindQueue, isEmitSystem]

/-- Witness for connectToTopic_setup_sequence on a sample run. -/
theorem connectToTopic_setup_sequence_witness :
    (connectToTopic sampleCfg "orders" defaultOpts sampleOutcomes).2.countP
        isCreateChannel = 1 ∧
    (connectToTopic sampleCfg "orders" defaultOpts sampleOutcomes).2.countP
        isAssertExchange = 1 ∧
    (connectToTopic sampleCfg "orders" defaultOpts sampleOutcomes).2.countP
        isAssertQueue = 1 ∧
    (connectToTopic sampleCfg "orders" defaultOpts sampleOutcomes).2.countP
        isBindQueue = 1 ∧
    (connectToTopic sampleCfg "orders" defaultOpts sampleOutcomes).2.findIdx
        isCreateChannel <
      (connectToTopic sampleCfg "orders" defaultOpts sampleOutcomes).2.findIdx
        isAssertExchange ∧
    (connectToTopic sampleCfg "orders" defaultOpts sampleOutcomes).2.findIdx
        isAssertExchange <
      (connectToTopic sampleCfg "orders" defaultOpts sampleOutcomes).2.findIdx
        isAssertQueue ∧
    (connectToTopic sampleCfg "orders" defaultOpts sampleOutcomes).2.findIdx
        isAssertQueue <
      (connectToTopic sampleCfg "orders" defaultOpts sampleOutcomes).2.findIdx
        isBindQueue ∧
    (connectToTopic sampleCfg "orders" defaultOpts sampleOutcomes).2.findIdx
        isBindQueue <
      (connectToTopic sampleCfg "orders" defaultOpts sampleOutcomes).2.findIdx
        isEmitSystem :=
  connectToTopic_setup_sequence sampleCfg "orders" defaultOpts sampleOutcomes
    JsonVal.null (JsonVal.str "assert success") (JsonVal.str "bind success")
    rfl rfl rfl rfl

/-- Claim C9: the system event emitted on completion of the setup
sequence carries, as its entire payload, exactly the result of the
assertQueue step — quantified independently of the bind result. -/
theorem system_event_carries_queue_result (cfg : Config) (topic : String)
    (o : Opts) (s : SetupOutcomes) (ev qv bv : JsonVal)
    (hc : s.channelOk = .ok ()) (he : s.exchangeRes = .ok ev)
    (hq : s.queueRes = .ok qv) (hb : s.bindRes = .ok bv) :
    (connectToTopic cfg topic o s).2.countP isEmitSystem = 1 ∧
    MqAction.emitSystem (.raw qv) ∈ (connectToTopic cfg topic o s).2 := by
  rw [connectToTopic_success_trace cfg topic o s ev qv bv hc he hq hb]
  cases h : strictTrue o.consume <;>
    simp [List.countP_append, List.countP_cons, List.countP_nil, isEmitSystem]

/-- Witness for system_event_carries_queue_result on a sample run where
the bind result differs from the queue-assertion result. -/
theorem system_event_carries_queue_result_witness :
    (connectToTopic sampleCfg "orders" defaultOpts sampleOutcomes).2.countP
        isEmitSystem = 1 ∧
    MqAction.emitSystem (.raw (JsonVal.str "assert success")) ∈
      (connectToTopic sampleCfg "orders" defaultOpts sampleOutcomes).2 :=
  system_event_carries_queue_result sampleCfg "orders" defaultOpts
    sampleOutcomes JsonVal.null (JsonVal.str "assert success")
    (JsonVal.str "bind success") rfl rfl rfl rfl

/-- On a successful parse the try-catch body always emits the augmented
record on the message event, whatever the listeners then do. -/
theorem tryCatchBody_emitMessage_mem
    (parse : String → Except String JsonVal)
    (ml : Obj → Except String Unit) (el : String → Except String Unit)
    (msg : Obj) (j : JsonVal) (hp : parse (contentOf msg) = .ok j) :
    MqAction.emitMessage (objAssign [("message", j)] msg) ∈
      (tryCatchBody parse ml el msg).2 := by
  cases hml : ml (objAssign [("message", j)] msg) with
  | ok _ => simp [tryCatchBody, hp, hml]
  | error e => cases hel : el e <;> simp [tryCatchBody, hp, hml, hel]

/-- A delivery record that already carries a field named message. -/
def msgWithMessageField : Obj :=
  [("message", JsonVal.str "original"), ("content", JsonVal.str "body")]

/-- Claim C3 fails as stated: on a delivery that itself has a message
field and whose body parses successfully, the emitted payload's message
field is the delivery's own original value, not the parsed structure —
Object.assign copies the delivery's fields over the freshly built
message field, so the source delivery wins the collision. -/
theorem consume_payload_message_field_shadowed :
    (consumeCallback defaultOpts parseNum7 okML okEL msgWithMessageField).2 =
      [MqAction.emitMessage
         (objAssign [("message", JsonVal.num 7)] msgWithMessageField),
       MqAction.ack msgWithMessageField] ∧
    lookupField (objAssign [("message", JsonVal.num 7)] msgWithMessageField)
        "message" = some (JsonVal.str "original") ∧
    JsonVal.str "original" ≠ JsonVal.num 7 :=
  ⟨rfl, rfl, fun h => JsonVal.noConfusion h⟩

/-- Claim C3 amended: for every delivery whose body parses successfully
and whose record has no own field named message, the consume callback
emits the augmented record on the message event; its message field holds
the parsed structure and every other field of the original delivery is
preserved unchanged.  (A delivery that already has a message field keeps
its original value there instead, as the counterexample shows.) -/
theorem consume_payload_fields (o : Opts)
    (parse : String → Except String JsonVal)
    (ml : Obj → Except String Unit) (el : String → Except String Unit)
    (msg : Obj) (j : JsonVal)
    (hp : parse (contentOf msg) = .ok j)
    (hm : lookupField msg "message" = none) :
    MqAction.emitMessage (objAssign [("message", j)] msg) ∈
      (consumeCallback o parse ml el msg).2 ∧
    lookupField (objAssign [("message", j)] msg) "message" = some j ∧
    (∀ k, k ≠ "message" →
      lookupField (objAssign [("message", j)] msg) k = lookupField msg k) := by
  refine ⟨?_, ?_, ?_⟩
  · unfold consumeCallback
    exact List.mem_append_left _
      (tryCatchBody_emitMessage_mem parse ml el msg j hp)
  · show lookupField (msg ++ [("message", j)]) "message" = some j
    rw [lookupField_append_of_none msg _ "message" hm]
    simp [lookupField]
  · intro k hk
    show lookupField (msg ++ [("message", j)]) k = lookupField msg k
    cases hv : lookupField msg k with
    | some v => rw [lookupField_append_of_some msg _ k v hv]
    | none =>
      rw [lookupField_append_of_none msg _ k hv]
      simp [lookupField, hk]

/-- Witness for consume_payload_fields at a concrete delivery with only
a content field. -/
theorem consume_payload_fields_witness :
    MqAction.emitMessage (objAssign [("message", JsonVal.num 7)] samplePlainMsg) ∈
      (consumeCallback defaultOpts parseNum7 okML okEL samplePlainMsg).2 ∧
    lookupField (objAssign [("message", JsonVal.num 7)] samplePlainMsg)
        "message" = some (JsonVal.num 7) ∧
    lookupField (objAssign [("message", JsonVal.num 7)] samplePlainMsg)
        "content" = lookupField samplePlainMsg "content" :=
  ⟨(consume_payload_fields defaultOpts parseNum7 okML okEL samplePlainMsg
      (JsonVal.num 7) rfl rfl).1,
   (consume_payload_fields defaultOpts parseNum7 okML okEL samplePlainMsg
      (JsonVal.num 7) rfl rfl).2.1,
   (consume_payload_fields defaultOpts parseNum7 okML okEL samplePlainMsg
      (JsonVal.num 7) rfl rfl).2.2 "content" (by decide)⟩

/-- Claim C4 fails as stated: the emit of the message event sits inside
the try block, so an error thrown by a message-event listener during
that emit does not escape the callback — the catch block converts it
into a SyntaxError, emits it on the error event, and the delivery is
still acknowledged. -/
theorem consume_emission_error_caught_cx :
    (consumeCallback defaultOpts parseNum7 throwML okEL samplePlainMsg).1 =
      Except.ok () ∧
    (consumeCallback defaultOpts parseNum7 throwML okEL samplePlainMsg).2 =
      [MqAction.emitMessage
         (objAssign [("message", JsonVal.num 7)] samplePlainMsg),
       MqAction.emitError (.synErr "listener failure"),
       MqAction.ack samplePlainMsg] :=
  ⟨rfl, rfl⟩

/-- Claim C4 amended: an error thrown by a listener while the message
event is being emitted is caught by the same catch block as a parse
failure, wrapped in a SyntaxError and emitted on the error event; the
callback returns normally and, when the acknowledge option is true, the
delivery is still acknowledged exactly once.  Only an error thrown while
the error event itself is emitted escapes the callback. -/
theorem consume_emission_error_caught (o : Opts)
    (parse : String → Except String JsonVal)
    (ml : Obj → Except String Unit) (el : String → Except String Unit)
    (msg : Obj) (j : JsonVal) (e : String)
    (hp : parse (contentOf msg) = .ok j)
    (hml : ml (objAssign [("message", j)] msg) = .error e)
    (hel : el e = .ok ()) :
    (consumeCallback o parse ml el msg).1 = Except.ok () ∧
    MqAction.emitError (.synErr e) ∈ (consumeCallback o parse ml el msg).2 ∧
    (o.acknowledge = some true →
      (consumeCallback o parse ml el msg).2.countP isAck = 1) := by
  have h := tryCatchBody_ml_error parse ml el msg j e hp hml hel
  refine ⟨?_, ?_, ?_⟩
  · unfold consumeCallback
    rw [h]
  · unfold consumeCallback
    rw [h]
    simp
  · intro ha
    rw [consumeCallback_countP_ack, ha]
    simp [strictTrue]

/-- Witness for consume_emission_error_caught at a concrete delivery and
a throwing message listener. -/
theorem consume_emission_error_caught_witness :
    (consumeCallback defaultOpts parseNum7 throwML okEL samplePlainMsg).1 =
      Except.ok () ∧
    MqAction.emitError (.synErr "listener failure") ∈
      (consumeCallback defaultOpts parseNum7 throwML okEL samplePlainMsg).2 ∧
    (consumeCallback defaultOpts parseNum7 throwML okEL samplePlainMsg).2.countP
        isAck = 1 :=
  ⟨(consume_emission_error_caught defaultOpts parseNum7 throwML okEL
      samplePlainMsg (JsonVal.num 7) "listener failure" rfl rfl rfl).1,
   (consume_emission_error_caught defaultOpts parseNum7 throwML okEL
      samplePlainMsg (JsonVal.num 7) "listener failure" rfl rfl rfl).2.1,
   (consume_emission_error_caught defaultOpts parseNum7 throwML okEL
      samplePlainMsg (JsonVal.num 7) "listener failure" rfl rfl rfl).2.2 rfl⟩

/-- An options object supplied with only the consume key. -/
def onlyConsumeOpts : Opts := { consume := some true, acknowledge := none }

/-- An options object supplied with only the acknowledge key. -/
def onlyAckOpts : Opts := { consume := none, acknowledge := some true }

/-- Claim C10: the documented defaults apply only when the options
argument is omitted entirely (the default parameter value has both flags
true); a flag missing from a partially supplied options object is
undefined and, under the strict === true comparisons, is treated as
false: the consumption loop is not started, respectively deliveries are
not acknowledged. -/
theorem opts_defaults_only_when_omitted (cfg : Config) (topic : String)
    (s : SetupOutcomes) (parse : String → Except String JsonVal)
    (ml : Obj → Except String Unit) (el : String → Except String Unit)
    (msg : Obj) (o1 o2 : Opts)
    (h1 : o1.consume = none) (h2 : o2.acknowledge = none) :
    defaultOpts.consume = some true ∧ defaultOpts.acknowledge = some true ∧
    (connectToTopic cfg topic o1 s).2.countP isConsume = 0 ∧
    (consumeCallback o2 parse ml el msg).2.countP isAck = 0 := by
  refine ⟨rfl, rfl, ?_, ?_⟩
  · obtain ⟨co, er, qr, br⟩ := s
    cases co <;> cases er <;> cases qr <;> cases br <;>
      simp [connectToTopic, h1, strictTrue, isConsume, List.countP_append,
            List.countP_cons, List.countP_nil]
  · rw [consumeCallback_countP_ack, h2]
    simp [strictTrue]

/-- Witness for opts_defaults_only_when_omitted at two concrete partial
options objects. -/
theorem opts_defaults_only_when_omitted_witness :
    defaultOpts.consume = some true ∧ defaultOpts.acknowledge = some true ∧
    (connectToTopic sampleCfg "orders" onlyAckOpts sampleOutcomes).2.countP
        isConsume = 0 ∧
    (consumeCallback onlyConsumeOpts parseReject okML okEL
        sampleBadMsg).2.countP isAck = 0 :=
  opts_defaults_only_when_omitted sampleCfg "orders" sampleOutcomes
    parseReject okML okEL sampleBadMsg onlyAckOpts onlyConsumeOpts rfl rfl
